import Mathlib

/-!
Verification of the `telemetry` package of rancher/rke2-security-responder.

The Go sources are shallowly embedded below.  Pure helpers
(`extractImageVersion`, `isControlPlaneNode`, `getSELinuxStatus`, the
classification heuristics) are translated directly; the Kubernetes client is
replaced by a record of query results (`ClusterInput`), and each fallible
query is an `Except Unit` value.  Go maps become association lists
(`List (String × _)`, first binding wins, matching Go's unique-key maps);
where the Go code *ranges over* a map (the CNI pattern table and the GPU
namespace table), the iteration order is an explicit parameter, since Go
randomizes map iteration order.
-/

namespace Telemetry

/-! ## String helpers (strings.Contains, strings.ToLower, …) -/

/-- `charsPrefixOf n h` is true when `n` is a prefix of `h`. -/
def charsPrefixOf : List Char → List Char → Bool
  | [], _ => true
  | _ :: _, [] => false
  | a :: as, b :: bs => a == b && charsPrefixOf as bs

/-- `charsContains needle hay`: `needle` occurs contiguously in `hay`
(Go `strings.Contains`, which is true for the empty needle). -/
def charsContains (needle : List Char) : List Char → Bool
  | [] => needle.isEmpty
  | c :: rest => charsPrefixOf needle (c :: rest) || charsContains needle rest

/-- Go `strings.Contains(s, pat)`. -/
def strContains (s pat : String) : Bool := charsContains pat.data s.data

/-- ASCII lowercasing of one character (the only case folding relevant to the
workload names matched by the source). -/
def charLower (c : Char) : Char :=
  if 65 ≤ c.toNat ∧ c.toNat ≤ 90 then Char.ofNat (c.toNat + 32) else c

/-- Go `strings.ToLower` on the ASCII names the source matches against. -/
def lowerString (s : String) : String := ⟨s.data.map charLower⟩

/-! ## extractImageVersion (telemetry.go in src/unnamed/part_001, lines 223–232)

```go
func extractImageVersion(image string) string {
    if idx := strings.LastIndex(image, ":"); idx != -1 {
        tag := image[idx+1:]
        if atIdx := strings.Index(tag, "@"); atIdx != -1 {
            tag = tag[:atIdx]
        }
        return tag
    }
    return ""
}
```
-/

/-- The characters after the last `':'`, or `none` when there is no `':'`
(`strings.LastIndex` returning `-1`). -/
def afterLastColon : List Char → Option (List Char)
  | [] => none
  | c :: rest =>
    match afterLastColon rest with
    | some t => some t
    | none => if c = ':' then some rest else none

/-- Embedding of `extractImageVersion`: take everything after the last `':'`,
then cut at the first `'@'` (`tag[:atIdx]`). -/
def extractImageVersion (image : String) : String :=
  match afterLastColon image.data with
  | some tag => ⟨tag.takeWhile (fun c => c != '@')⟩
  | none => ""

/-- Image-tag extraction as the spec words it: the substring after the last
`':'` of the image string, truncated at a following `'@'` when one appears;
`""` when the image has no `':'`. -/
def extractImageVersionSpec (image : String) : String :=
  if ':' ∈ image.data then
    ⟨((image.data.reverse.takeWhile (fun c => c != ':')).reverse).takeWhile
      (fun c => c != '@')⟩
  else ""

/-! ## Data model -/

/-- A dynamically-typed `ExtraFieldInfo` value (`map[string]interface{}`:
the source only ever stores strings, integers and booleans). -/
inductive FieldValue where
  | str (s : String)
  | int (n : Int)
  | bool (b : Bool)
deriving DecidableEq

/-- `telemetry.Data`: the fact-set.  The two Go maps are written as
association lists in insertion order. -/
structure Data where
  AppVersion : String
  ExtraTagInfo : List (String × String)
  ExtraFieldInfo : List (String × FieldValue)
deriving DecidableEq

/-- A container of a pod template: image plus environment variables. -/
structure Container where
  image : String
  env : List (String × String)
deriving DecidableEq

/-- A daemon-set or deployment as far as the source reads it:
its name and its pod template's containers. -/
structure Workload where
  name : String
  containers : List Container
deriving DecidableEq

/-- A node as far as the source reads it: labels, node-system info, and the
allocatable resource quantities (already taken through `AsInt64`). -/
structure Node where
  labels : List (String × String)
  osImage : String
  kernelVersion : String
  architecture : String
  allocatable : List (String × Int)
deriving DecidableEq

/-- The kube-system namespace object, as far as the source reads it. -/
structure NamespaceInfo where
  uid : String
deriving DecidableEq

/-- The result of every cluster query `Collect` issues, one field per call
site; `Except Unit` is the query's error dimension. -/
structure ClusterInput where
  serverVersion : Except Unit String
  kubeSystemNS : Except Unit NamespaceInfo
  nodes : Except Unit (List Node)
  kubeSystemDaemonSets : Except Unit (List Workload)
  kubeSystemDeployments : Except Unit (List Workload)
  gpuNamespaceDaemonSets : String → Except Unit (List Workload)
  cattleSystemNS : Except Unit Unit
  cattleClusterAgent : Except Unit Workload

/-! ## Node classification (part_001, lines 204–221) -/

/-- Whether a node carries a label with the given key. -/
def hasLabelKey (node : Node) (key : String) : Bool :=
  (node.labels.lookup key).isSome

/-- `isControlPlaneNode`: the node has the `control-plane` or the `master`
role label. -/
def isControlPlaneNode (node : Node) : Bool :=
  hasLabelKey node "node-role.kubernetes.io/control-plane" ||
  hasLabelKey node "node-role.kubernetes.io/master"

/-- `getSELinuxStatus`: label present with value `"enabled"` → `"enabled"`;
present with any other value → `"disabled"`; absent → `"unknown"`. -/
def getSELinuxStatus (node : Node) : String :=
  match node.labels.lookup "security.alpha.kubernetes.io/selinux" with
  | some selinux => if selinux = "enabled" then "enabled" else "disabled"
  | none => "unknown"

/-! ## GPU resource detection inside the node loop (part_001, lines 63–94) -/

/-- `gpuVendorMap` (a Go map only ever indexed, never ranged over). -/
def gpuVendorMap : List (String × String) :=
  [("nvidia.com/gpu", "nvidia"), ("amd.com/gpu", "amd"), ("intel.com/gpu", "intel")]

/-- The `gpuResources` slice, scanned in declaration order: the first resource
name the node holds a positive allocatable quantity of, if any (the loop body
counts the node and breaks exactly when such a resource exists). -/
def nodeGpuResource (node : Node) : Option String :=
  ["nvidia.com/gpu", "amd.com/gpu", "intel.com/gpu"].find? fun res =>
    match node.allocatable.lookup res with
    | some count => decide (count > 0)
    | none => false

/-- Go `gpuVendorMap[res]` (missing key yields the zero value `""`). -/
def gpuVendorFor (res : String) : String := (gpuVendorMap.lookup res).getD ""

/-- The mutable locals of `Collect`'s node loop (part_001, lines 60–95). -/
structure NodeAcc where
  serverNodeCount : Nat
  agentNodeCount : Nat
  gpuNodeCount : Nat
  osImage : String
  kernelVersion : String
  arch : String
  selinuxInfo : String
  gpuVendor : String
deriving DecidableEq

/-- One iteration of the node loop. -/
def stepNode (acc0 : NodeAcc) (node : Node) : NodeAcc :=
  let acc1 :=
    if isControlPlaneNode node then
      { acc0 with serverNodeCount := acc0.serverNodeCount + 1 }
    else
      { acc0 with agentNodeCount := acc0.agentNodeCount + 1 }
  let acc2 :=
    if acc1.osImage = "" then
      { acc1 with osImage := node.osImage, kernelVersion := node.kernelVersion,
                  arch := node.architecture }
    else acc1
  let acc3 :=
    if acc2.selinuxInfo = "" then
      { acc2 with selinuxInfo := getSELinuxStatus node }
    else acc2
  match nodeGpuResource node with
  | some res =>
    { acc3 with gpuNodeCount := acc3.gpuNodeCount + 1,
                gpuVendor := if acc3.gpuVendor = "" then gpuVendorFor res
                             else acc3.gpuVendor }
  | none => acc3

/-- The node loop, started from zero-valued locals. -/
def foldNodes (nodes : List Node) : NodeAcc :=
  nodes.foldl stepNode ⟨0, 0, 0, "", "", "", "", ""⟩

/-! ## Workload classification tables and detectors (part_001, lines 234–361) -/

/-- Version of the first container of a workload's pod template, or `""`
when the template has no containers. -/
def firstContainerVersion (w : Workload) : String :=
  match w.containers with
  | [] => ""
  | c :: _ => extractImageVersion c.image

/-- The entries of the Go map `cniPatterns`, in declaration order.  The Go
code *ranges over* this map, so the order in which the pairs are tried is
randomized; detectors below take the order as a parameter. -/
def cniPatternTable : List (String × String) :=
  [("canal", "canal"), ("flannel", "flannel"), ("calico", "calico"),
   ("cilium", "cilium"), ("weave", "weave")]

/-- The inner pattern loop of `detectCNIPlugin` for one daemon-set, given the
map-iteration order `patterns`: the first `(pattern, cniName)` pair whose
pattern occurs in the lowercased name wins. -/
def cniMatchFor (patterns : List (String × String)) (w : Workload) :
    Option (String × String) :=
  match patterns.find? (fun p => strContains (lowerString w.name) p.1) with
  | some p => some (p.2, firstContainerVersion w)
  | none => none

/-- `detectCNIPlugin`'s scan of the kube-system daemon-sets (the outer loop is
over the listed slice, in order).  Returns `(name, version)`;
`("unknown", "")` when nothing matches. -/
def detectCNIPlugin (patterns : List (String × String)) :
    List Workload → String × String
  | [] => ("unknown", "")
  | w :: rest =>
    match cniMatchFor patterns w with
    | some r => r
    | none => detectCNIPlugin patterns rest

/-- `detectCNIPlugin` including its fallible daemon-set listing. -/
def detectCNIPluginE (patterns : List (String × String))
    (daemonSets : Except Unit (List Workload)) :
    Except Unit (String × String) :=
  match daemonSets with
  | .error e => .error e
  | .ok dss => .ok (detectCNIPlugin patterns dss)

/-- The name's lowercased form contains `"nginx-ingress"` or
`"rke2-ingress-nginx"`. -/
def matchesNginx (name : String) : Bool :=
  strContains (lowerString name) "nginx-ingress" ||
  strContains (lowerString name) "rke2-ingress-nginx"

/-- The name's lowercased form contains `"traefik"`. -/
def matchesTraefik (name : String) : Bool :=
  strContains (lowerString name) "traefik"

/-- The `switch` of `detectIngressController` applied to one workload name:
`""` plays the role of "no case matched". -/
def ingressNameFor (w : Workload) : String :=
  if matchesNginx w.name then "rke2-ingress-nginx"
  else if matchesTraefik w.name then "traefik"
  else ""

/-- Scan a workload list for the first ingress match. -/
def findIngress : List Workload → Option (String × String)
  | [] => none
  | w :: rest =>
    if ingressNameFor w ≠ "" then some (ingressNameFor w, firstContainerVersion w)
    else findIngress rest

/-- `detectIngressController` (part_001, lines 264–310): deployments in
kube-system first; then, only when no deployment matched and the daemon-set
listing succeeded, the daemon-sets; a failed deployment listing is the only
error; no match at all yields `("none", "")`. -/
def detectIngressController (deployments daemonSets : Except Unit (List Workload)) :
    Except Unit (String × String) :=
  match deployments with
  | .error e => .error e
  | .ok deps =>
    match findIngress deps with
    | some r => .ok r
    | none =>
      match daemonSets with
      | .error _ => .ok ("none", "")
      | .ok dss =>
        match findIngress dss with
        | some r => .ok r
        | none => .ok ("none", "")

/-- The entries of the Go map `gpuNamespaces` in declaration order; the code
ranges over this map, so the namespace probing order is randomized. -/
def gpuNamespaceTable : List (String × String) :=
  [("gpu-operator", "nvidia-gpu-operator"), ("kube-amd-gpu", "amd-gpu-operator"),
   ("inteldeviceplugins-system", "intel-device-plugins")]

/-- A daemon-set name marks a GPU operator when it contains `"device-plugin"`
or `"driver"` (lowercased). -/
def gpuMarkerMatch (w : Workload) : Bool :=
  strContains (lowerString w.name) "device-plugin" ||
  strContains (lowerString w.name) "driver"

/-- `detectGPUOperator` (part_001, lines 312–337), with the map-iteration
order over `gpuNamespaces` as the `order` parameter: namespaces whose listing
fails are skipped; the first namespace owning a marker daemon-set wins;
no match yields `("none", "")`. -/
def detectGPUOperator (order : List (String × String))
    (dsOf : String → Except Unit (List Workload)) : String × String :=
  match order with
  | [] => ("none", "")
  | (ns, operator) :: rest =>
    match dsOf ns with
    | .error _ => detectGPUOperator rest dsOf
    | .ok dss =>
      match dss.find? gpuMarkerMatch with
      | some w => (operator, firstContainerVersion w)
      | none => detectGPUOperator rest dsOf

/-- `detectRancherManager` (part_001, lines 339–361): no cattle-system
namespace → not managed; namespace but no agent deployment → managed with
empty details; otherwise version from the first container's image tag and
install UUID from the first non-empty `CATTLE_INSTALL_UUID` env entry. -/
def detectRancherManager (cattleNS : Except Unit Unit)
    (agentDeploy : Except Unit Workload) : Bool × String × String :=
  match cattleNS with
  | .error _ => (false, "", "")
  | .ok _ =>
    match agentDeploy with
    | .error _ => (true, "", "")
    | .ok deploy =>
      match deploy.containers with
      | [] => (true, "", "")
      | c :: _ =>
        let version := extractImageVersion c.image
        let installUUID :=
          match c.env.find? (fun e => e.1 == "CATTLE_INSTALL_UUID" && e.2 != "") with
          | some e => e.2
          | none => ""
        (true, version, installUUID)

/-! ## Collect (part_001, lines 31–155) -/

/-- `if cond { data.ExtraFieldInfo[key] = value }`:
the conditionally-present fields. -/
def optField (cond : Bool) (key : String) (value : FieldValue) :
    List (String × FieldValue) :=
  if cond then [(key, value)] else []

/-- The `gpu-operator` block (part_001, lines 135–140). -/
def gpuOperatorFields (operator version : String) : List (String × FieldValue) :=
  if operator ≠ "none" then
    ("gpu-operator", .str operator) ::
      optField (version ≠ "") "gpu-operator-version" (.str version)
  else []

/-- `Collect` with the two map-iteration orders (`cniOrder` for
`cniPatterns`, `gpuNsOrder` for `gpuNamespaces`) made explicit.  The three
fatal queries abort with their error; every later detection is downgraded.
Fields are listed in the source's insertion order. -/
def Collect (cniOrder gpuNsOrder : List (String × String)) (inp : ClusterInput) :
    Except Unit Data :=
  match inp.serverVersion with
  | .error e => .error e
  | .ok gitVersion =>
    match inp.kubeSystemNS with
    | .error e => .error e
    | .ok ns =>
      match inp.nodes with
      | .error e => .error e
      | .ok nodeList =>
        let acc := foldNodes nodeList
        let cni :=
          match detectCNIPluginE cniOrder inp.kubeSystemDaemonSets with
          | .error _ => ("unknown", "")
          | .ok r => r
        let ingress :=
          match detectIngressController inp.kubeSystemDeployments
              inp.kubeSystemDaemonSets with
          | .error _ => ("unknown", "")
          | .ok r => r
        let gpuOp := detectGPUOperator gpuNsOrder inp.gpuNamespaceDaemonSets
        let rancher := detectRancherManager inp.cattleSystemNS inp.cattleClusterAgent
        .ok
          { AppVersion := gitVersion
            ExtraTagInfo := [("kubernetesVersion", gitVersion), ("clusteruuid", ns.uid)]
            ExtraFieldInfo :=
              [("serverNodeCount", .int acc.serverNodeCount),
               ("agentNodeCount", .int acc.agentNodeCount),
               ("os", .str acc.osImage),
               ("kernel", .str acc.kernelVersion),
               ("arch", .str acc.arch),
               ("selinux", .str acc.selinuxInfo),
               ("gpu-nodes", .int acc.gpuNodeCount)] ++
              optField (acc.gpuVendor ≠ "") "gpu-vendor" (.str acc.gpuVendor) ++
              [("cni-plugin", .str cni.1)] ++
              optField (cni.2 ≠ "") "cni-version" (.str cni.2) ++
              [("ingress-controller", .str ingress.1)] ++
              optField (ingress.2 ≠ "") "ingress-version" (.str ingress.2) ++
              gpuOperatorFields gpuOp.1 gpuOp.2 ++
              [("rancher-managed", .bool rancher.1)] ++
              optField (rancher.2.1 ≠ "") "rancher-version" (.str rancher.2.1) ++
              optField (rancher.2.2 ≠ "") "rancher-install-uuid" (.str rancher.2.2) }

/-! ## Send (part_001, lines 157–202; identical skeleton in
src/telemetry/telemetry.go, lines 94–137)

The HTTP client is an oracle `outcomes : Nat → AttemptOutcome` giving, for
each attempt index, what `client.Do` would observe on that attempt.  The
trace records, per attempt actually made, the sleep performed before it and
the request body posted by it. -/

/-- `maxRetries = 3`. -/
def maxRetries : Nat := 3

/-- `retryDelay = 2 * time.Second`, in seconds. -/
def retryDelaySeconds : Nat := 2

/-- What one `client.Do` call produces: a transport error, or a response
with a status code. -/
inductive AttemptOutcome where
  | transportError (msg : String)
  | status (code : Nat)

/-- `resp.StatusCode < 200 || resp.StatusCode >= 300`. -/
def statusFails (code : Nat) : Bool := code < 200 || 300 ≤ code

/-- Whether an attempt takes one of the two `continue` branches. -/
def attemptFails : AttemptOutcome → Bool
  | .transportError _ => true
  | .status code => statusFails code

/-- The `lastErr` each failing branch stores (the two `fmt.Errorf` wraps). -/
def errMsg : AttemptOutcome → String
  | .transportError msg => "failed to send request: " ++ msg
  | .status code => "unexpected status code: " ++ toString code

instance {ε α : Type} [DecidableEq ε] [DecidableEq α] : DecidableEq (Except ε α) :=
  fun x y =>
    match x, y with
    | .ok a, .ok b =>
      if h : a = b then .isTrue (by rw [h])
      else .isFalse (by intro hh; cases hh; exact h rfl)
    | .ok _, .error _ => .isFalse (by intro h; cases h)
    | .error _, .ok _ => .isFalse (by intro h; cases h)
    | .error a, .error b =>
      if h : a = b then .isTrue (by rw [h])
      else .isFalse (by intro hh; cases hh; exact h rfl)

/-- Per-run observable record of `Send`: the sleeps before each attempt, the
body each attempt posted, and the final result. -/
structure SendTrace where
  waits : List Nat
  bodies : List String
  result : Except String Unit
deriving DecidableEq

/-- A minimal JSON rendering of a string (the source delegates escaping to
`encoding/json`; none of the theorems depend on escaping). -/
def renderString (s : String) : String := "\"" ++ s ++ "\""

/-- Render one `ExtraFieldInfo` value. -/
def renderFieldValue : FieldValue → String
  | .str s => renderString s
  | .int n => toString n
  | .bool b => if b then "true" else "false"

/-- Render a string-to-string object. -/
def renderTags (tags : List (String × String)) : String :=
  "\x7b" ++ String.intercalate ","
    (tags.map fun t => renderString t.1 ++ ":" ++ renderString t.2) ++ "\x7d"

/-- Render the dynamically-typed field object. -/
def renderFields (fields : List (String × FieldValue)) : String :=
  "\x7b" ++ String.intercalate ","
    (fields.map fun f => renderString f.1 ++ ":" ++ renderFieldValue f.2) ++ "\x7d"

/-- `json.Marshal(data)`: the wire payload of §6.  For this `Data` shape
(strings, integers, booleans) Go's `json.Marshal` cannot fail, so the
marshal-error branch of `Send` is unreachable and the function is total. -/
def marshalData (d : Data) : String :=
  "\x7b" ++ renderString "appVersion" ++ ":" ++ renderString d.AppVersion ++
  "," ++ renderString "extraTagInfo" ++ ":" ++ renderTags d.ExtraTagInfo ++
  "," ++ renderString "extraFieldInfo" ++ ":" ++ renderFields d.ExtraFieldInfo ++ "\x7d"

/-- The retry loop of `Send`, from attempt number `attempt` with `remaining`
loop iterations left: sleep `(attempt-1) * retryDelay` before every attempt
but the first, post `jsonData`, and stop at the first attempt that neither
errors nor returns a non-2xx status.  Exhausting the loop returns `lastErr`. -/
def sendFrom (outcomes : Nat → AttemptOutcome) (jsonData : String) :
    Nat → Nat → String → SendTrace
  | _, 0, lastErr => ⟨[], [], .error lastErr⟩
  | attempt, r + 1, _lastErr =>
    let wait := if attempt > 1 then (attempt - 1) * retryDelaySeconds else 0
    if attemptFails (outcomes attempt) then
      let t := sendFrom outcomes jsonData (attempt + 1) r (errMsg (outcomes attempt))
      ⟨wait :: t.waits, jsonData :: t.bodies, t.result⟩
    else
      ⟨[wait], [jsonData], .ok ()⟩

/-- `Send`: marshal once, then run the retry loop.  The second component
returns the (unmodified) fact-set, mirroring that the Go code never writes
through the `*Data` pointer. -/
def Send (data : Data) (outcomes : Nat → AttemptOutcome) : SendTrace × Data :=
  (sendFrom outcomes (marshalData data) 1 maxRetries "", data)

/-! ## The response-returning `Send` exercised by the tests

`main.go` calls `_, err := telemetry.Send(...)` and the newer test file
checks `Send` against a `Response` structure, but that revision of `Send` is
not among the provided sources; it is modelled from the spec below. -/

/-- One entry of the remote endpoint's reply (§6): a version name and its
release date. -/
structure Version where
  name : String
  releaseDate : String
deriving DecidableEq

/-- The expected remote response (§6): an ordered sequence of version
entries plus a suggested re-check interval in minutes. -/
structure Response where
  versions : List Version
  requestIntervalInMinutes : Int
deriving DecidableEq

/-- What one attempt of the response-returning `Send` observes: a transport
error, or a reply with a status code and the result of parsing its body
(`none` = the body does not parse as a `Response`). -/
inductive ReplyOutcome where
  | transportError (msg : String)
  | reply (code : Nat) (parsedBody : Option Response)

/-- Whether a reply attempt takes a retry branch. -/
def replyFails : ReplyOutcome → Bool
  | .transportError _ => true
  | .reply code _ => statusFails code

/-- The error a failing reply attempt stores. -/
def replyErrMsg : ReplyOutcome → String
  | .transportError msg => "failed to send request: " ++ msg
  | .reply code _ => "unexpected status code: " ++ toString code

/-- The parsed body of an attempt (meaningful only on a 2xx reply). -/
def replyBody : ReplyOutcome → Option Response
  | .transportError _ => none
  | .reply _ b => b

/-- Modelled from the spec: the retry loop of the response-returning `Send`
(§4.2), whose implementation is not among the provided source files (only
its tests and its caller in `main.go` are).  Same retry/backoff policy as
`sendFrom`; on the first 2xx reply it returns the parsed body, and a body
that fails to parse is returned as `none` with no error ("treated as success
with no data"). -/
def sendWithResponseFrom (outcomes : Nat → ReplyOutcome) :
    Nat → Nat → String → Except String (Option Response)
  | _, 0, lastErr => .error lastErr
  | attempt, r + 1, _lastErr =>
    if replyFails (outcomes attempt) then
      sendWithResponseFrom outcomes (attempt + 1) r (replyErrMsg (outcomes attempt))
    else
      .ok (replyBody (outcomes attempt))

/-- Modelled from the spec: the response-returning `Send` (§4.2). -/
def SendWithResponse (_data : Data) (outcomes : Nat → ReplyOutcome) :
    Except String (Option Response) :=
  sendWithResponseFrom outcomes 1 maxRetries ""

/-! ## The mode-aware `Collect` exercised by the tests -/

/-- Sum of a named allocatable resource over the nodes satisfying `p`. -/
def sumAllocatable (nodes : List Node) (p : Node → Bool) (res : String) : Int :=
  (nodes.filter p).foldl (fun s n => s + ((n.allocatable.lookup res).getD 0)) 0

/-- Modelled from the spec: the mode-aware `Collect` (§4.1, operating mode
`recommended` or `minimal`) that the repository's tests exercise
(`TestCollect_MinimalMode`, …); its implementation is not among the provided
source files, only its tests are.  It extends `Collect` with the mode marker,
per-class CPU/memory aggregates, and §4.1 step 4: in `minimal` mode the
node-derived counts and the CPU/memory aggregates are replaced with the
sentinel `-1`, and the management-layer detail fields become empty strings
while the boolean status is still collected.  The mode-independent IP-stack
step (§4.1 step 9) is not needed by any claim and is omitted. -/
def CollectWithMode (mode : String) (cniOrder gpuNsOrder : List (String × String))
    (inp : ClusterInput) : Except Unit Data :=
  match inp.serverVersion with
  | .error e => .error e
  | .ok gitVersion =>
    match inp.kubeSystemNS with
    | .error e => .error e
    | .ok ns =>
      match inp.nodes with
      | .error e => .error e
      | .ok nodeList =>
        let acc := foldNodes nodeList
        let serverCPU := sumAllocatable nodeList isControlPlaneNode "cpu"
        let agentCPU := sumAllocatable nodeList (fun n => !isControlPlaneNode n) "cpu"
        let serverMemory := sumAllocatable nodeList isControlPlaneNode "memory"
        let agentMemory :=
          sumAllocatable nodeList (fun n => !isControlPlaneNode n) "memory"
        let cni :=
          match detectCNIPluginE cniOrder inp.kubeSystemDaemonSets with
          | .error _ => ("unknown", "")
          | .ok r => r
        let ingress :=
          match detectIngressController inp.kubeSystemDeployments
              inp.kubeSystemDaemonSets with
          | .error _ => ("unknown", "")
          | .ok r => r
        let gpuOp := detectGPUOperator gpuNsOrder inp.gpuNamespaceDaemonSets
        let rancher := detectRancherManager inp.cattleSystemNS inp.cattleClusterAgent
        let minimal := mode = "minimal"
        .ok
          { AppVersion := gitVersion
            ExtraTagInfo := [("kubernetesVersion", gitVersion), ("clusteruuid", ns.uid)]
            ExtraFieldInfo :=
              ("mode", .str mode) ::
              (if minimal then
                [("serverNodeCount", .int (-1)), ("agentNodeCount", .int (-1)),
                 ("gpuNodeCount", .int (-1)), ("serverCPU", .int (-1)),
                 ("agentCPU", .int (-1)), ("serverMemory", .int (-1)),
                 ("agentMemory", .int (-1))]
              else
                [("serverNodeCount", .int acc.serverNodeCount),
                 ("agentNodeCount", .int acc.agentNodeCount),
                 ("gpuNodeCount", .int acc.gpuNodeCount),
                 ("serverCPU", .int serverCPU),
                 ("agentCPU", .int agentCPU),
                 ("serverMemory", .int serverMemory),
                 ("agentMemory", .int agentMemory)]) ++
              [("os", .str acc.osImage),
               ("kernel", .str acc.kernelVersion),
               ("arch", .str acc.arch),
               ("selinux", .str acc.selinuxInfo)] ++
              optField (acc.gpuVendor ≠ "") "gpu-vendor" (.str acc.gpuVendor) ++
              [("cni-plugin", .str cni.1)] ++
              optField (cni.2 ≠ "") "cni-version" (.str cni.2) ++
              [("ingress-controller", .str ingress.1)] ++
              optField (ingress.2 ≠ "") "ingress-version" (.str ingress.2) ++
              gpuOperatorFields gpuOp.1 gpuOp.2 ++
              [("rancher-managed", .bool rancher.1)] ++
              (if minimal then
                [("rancher-version", .str ""), ("rancher-install-uuid", .str "")]
              else
                optField (rancher.2.1 ≠ "") "rancher-version" (.str rancher.2.1) ++
                optField (rancher.2.2 ≠ "") "rancher-install-uuid"
                  (.str rancher.2.2)) }

/-- The ground truth of "the cluster is Rancher-managed": the cattle-system
namespace exists (its `Get` succeeds). -/
def cattleSystemExists (inp : ClusterInput) : Bool :=
  match inp.cattleSystemNS with
  | .ok _ => true
  | .error _ => false

/-! ## Observables of the GPU-operator probe, per namespace -/

/-- Whether probing one namespace yields a marker daemon-set (a failed
listing yields no match, per the `continue`). -/
def gpuNsMatches (dsOf : String → Except Unit (List Workload)) (ns : String) : Bool :=
  match dsOf ns with
  | .error _ => false
  | .ok dss => dss.any gpuMarkerMatch

/-- The version reported when the given namespace is the one that matches. -/
def gpuNsVersion (dsOf : String → Except Unit (List Workload)) (ns : String) : String :=
  match dsOf ns with
  | .error _ => ""
  | .ok dss =>
    match dss.find? gpuMarkerMatch with
    | some w => firstContainerVersion w
    | none => ""

/-! ## Concrete inputs used by witnesses and counterexamples -/

/-- A daemon-set whose name contains two CNI patterns (`canal` and `weave`). -/
def wlCanalWeaveW : Workload := ⟨"canal-weave", [⟨"img:v1", []⟩]⟩

/-- A flannel daemon-set. -/
def wlFlannelW : Workload := ⟨"kube-flannel-ds", [⟨"flannel/flannel:v0.22.0", []⟩]⟩

/-- A cluster state in which two GPU-operator namespaces both contain a
marker daemon-set. -/
def gpuDsOfW : String → Except Unit (List Workload) := fun ns =>
  if ns = "gpu-operator" then .ok [⟨"nvidia-device-plugin", []⟩]
  else if ns = "kube-amd-gpu" then .ok [⟨"amd-driver", []⟩]
  else .ok []

/-- An nginx ingress controller deployment. -/
def ingressDepW : Workload :=
  ⟨"rke2-ingress-nginx-controller", [⟨"rancher/nginx-ingress-controller:v1.9.0", []⟩]⟩

/-- The fact-set used as the concrete input of the `Send` witnesses. -/
def dataW : Data :=
  ⟨"v1.30.0", [("clusteruuid", "test")], [("serverNodeCount", .int 1)]⟩

/-- The response used by the C1 witness. -/
def responseW : Response := ⟨[⟨"v1.30.1", "2024-01-01"⟩], 480⟩

/-- A concrete control-plane node for the witnesses. -/
def serverNodeW : Node :=
  ⟨[("node-role.kubernetes.io/control-plane", "")], "Ubuntu 22.04", "5.15.0",
   "amd64", []⟩

/-- A concrete worker node for the witnesses. -/
def agentNodeW : Node := ⟨[], "Ubuntu 22.04", "5.15.0", "amd64", []⟩

/-- A concrete cluster with one server node and two agent nodes. -/
def inpW : ClusterInput where
  serverVersion := .ok "v1.30.0+rke2r1"
  kubeSystemNS := .ok ⟨"test-cluster-uuid"⟩
  nodes := .ok [serverNodeW, agentNodeW, agentNodeW]
  kubeSystemDaemonSets := .ok []
  kubeSystemDeployments := .ok []
  gpuNamespaceDaemonSets := fun _ => .ok []
  cattleSystemNS := .error ()
  cattleClusterAgent := .error ()

/-- A cluster whose daemon-set and deployment listings in kube-system fail. -/
def inpListFailW : ClusterInput where
  serverVersion := .ok "v1.30.0+rke2r1"
  kubeSystemNS := .ok ⟨"uuid"⟩
  nodes := .ok [agentNodeW]
  kubeSystemDaemonSets := .error ()
  kubeSystemDeployments := .error ()
  gpuNamespaceDaemonSets := fun _ => .error ()
  cattleSystemNS := .error ()
  cattleClusterAgent := .error ()

/-- A cluster whose kube-system namespace is missing. -/
def inpNoNSW : ClusterInput where
  serverVersion := .ok "v1.30.0+rke2r1"
  kubeSystemNS := .error ()
  nodes := .ok []
  kubeSystemDaemonSets := .ok []
  kubeSystemDeployments := .ok []
  gpuNamespaceDaemonSets := fun _ => .ok []
  cattleSystemNS := .error ()
  cattleClusterAgent := .error ()

/-- A cluster with the fatal queries succeeding and no nodes at all. -/
def inpEmptyW : ClusterInput where
  serverVersion := .ok "v1.30.0+rke2r1"
  kubeSystemNS := .ok ⟨"uuid"⟩
  nodes := .ok []
  kubeSystemDaemonSets := .ok []
  kubeSystemDeployments := .ok []
  gpuNamespaceDaemonSets := fun _ => .ok []
  cattleSystemNS := .error ()
  cattleClusterAgent := .error ()

/-- A cluster for the minimal-mode witness: cattle-system exists but the
agent deployment is missing. -/
def inpMinW : ClusterInput where
  serverVersion := .ok "v1.30.0+rke2r1"
  kubeSystemNS := .ok ⟨"uuid"⟩
  nodes := .ok [serverNodeW, agentNodeW]
  kubeSystemDaemonSets := .ok []
  kubeSystemDeployments := .ok []
  gpuNamespaceDaemonSets := fun _ => .ok []
  cattleSystemNS := .ok ()
  cattleClusterAgent := .error ()

/-! ## Helper lemmas -/

theorem takeWhile_append_all {p : Char → Bool} {xs ys : List Char}
    (h : ∀ x ∈ xs, p x = true) :
    (xs ++ ys).takeWhile p = xs ++ ys.takeWhile p := by
  induction xs with
  | nil => simp
  | cons a t ih =>
    have ha := h a (List.mem_cons_self a t)
    simp only [List.cons_append, List.takeWhile_cons, ha]
    simp [ih fun x hx => h x (List.mem_cons_of_mem a hx)]

theorem takeWhile_append_stop {p : Char → Bool} {xs ys : List Char}
    (h : ∃ x ∈ xs, p x = false) :
    (xs ++ ys).takeWhile p = xs.takeWhile p := by
  induction xs with
  | nil => simp at h
  | cons a t ih =>
    rcases h with ⟨x, hx, hpx⟩
    rcases List.mem_cons.mp hx with rfl | hxt
    · simp [List.takeWhile_cons, hpx]
    · cases ha : p a
      · simp [List.takeWhile_cons, ha]
      · simp only [List.cons_append, List.takeWhile_cons, ha]
        simp [ih ⟨x, hxt, hpx⟩]

theorem afterLastColon_eq (l : List Char) :
    afterLastColon l =
      if ':' ∈ l then some ((l.reverse.takeWhile (fun c => c != ':')).reverse)
      else none := by
  induction l with
  | nil => simp [afterLastColon]
  | cons c rest ih =>
    rw [afterLastColon, ih]
    by_cases hc : ':' ∈ rest
    · have hmem : (':' : Char) ∈ rest.reverse := by simpa using hc
      simp only [hc, if_true, List.mem_cons, or_true, List.reverse_cons]
      rw [takeWhile_append_stop ⟨':', hmem, by simp⟩]
    · by_cases hcc : c = ':'
      · subst hcc
        have hall : ∀ x ∈ rest.reverse, (x != ':') = true := by
          intro x hx
          have : x ∈ rest := by simpa using hx
          simp only [bne_iff_ne, ne_eq]
          intro hx'
          exact hc (hx' ▸ this)
        simp only [hc, if_false, if_true, List.mem_cons, true_or,
          List.reverse_cons]
        rw [takeWhile_append_all hall]
        simp
      · simp [hc, hcc, eq_comm]

end Telemetry

namespace Telemetry

/-! ## Unfolding equations and case analysis for the send loops -/

theorem sendFrom_zero (oc : Nat → AttemptOutcome) (j : String) (a : Nat) (le : String) :
    sendFrom oc j a 0 le = ⟨[], [], .error le⟩ := rfl

theorem sendFrom_succ (oc : Nat → AttemptOutcome) (j : String) (a r : Nat) (le : String) :
    sendFrom oc j a (r + 1) le =
      if attemptFails (oc a) then
        let t := sendFrom oc j (a + 1) r (errMsg (oc a))
        ⟨(if a > 1 then (a - 1) * retryDelaySeconds else 0) :: t.waits,
         j :: t.bodies, t.result⟩
      else
        ⟨[if a > 1 then (a - 1) * retryDelaySeconds else 0], [j], .ok ()⟩ := rfl

theorem sendFrom_cases (oc : Nat → AttemptOutcome) (j : String) :
    (attemptFails (oc 1) = false → sendFrom oc j 1 3 "" = ⟨[0], [j], .ok ()⟩) ∧
    (attemptFails (oc 1) = true → attemptFails (oc 2) = false →
      sendFrom oc j 1 3 "" = ⟨[0, 2], [j, j], .ok ()⟩) ∧
    (attemptFails (oc 1) = true → attemptFails (oc 2) = true →
      attemptFails (oc 3) = false →
      sendFrom oc j 1 3 "" = ⟨[0, 2, 4], [j, j, j], .ok ()⟩) ∧
    (attemptFails (oc 1) = true → attemptFails (oc 2) = true →
      attemptFails (oc 3) = true →
      sendFrom oc j 1 3 "" = ⟨[0, 2, 4], [j, j, j], .error (errMsg (oc 3))⟩) := by
  refine ⟨fun h1 => ?_, fun h1 h2 => ?_, fun h1 h2 h3 => ?_, fun h1 h2 h3 => ?_⟩ <;>
    simp [show (3 : Nat) = 2 + 1 from rfl, show (2 : Nat) = 1 + 1 from rfl,
      sendFrom_succ, sendFrom_zero, h1, retryDelaySeconds, *]

theorem sendWithResponseFrom_zero (oc : Nat → ReplyOutcome) (a : Nat) (le : String) :
    sendWithResponseFrom oc a 0 le = .error le := rfl

theorem sendWithResponseFrom_succ (oc : Nat → ReplyOutcome) (a r : Nat) (le : String) :
    sendWithResponseFrom oc a (r + 1) le =
      if replyFails (oc a) then
        sendWithResponseFrom oc (a + 1) r (replyErrMsg (oc a))
      else
        .ok (replyBody (oc a)) := rfl

/-! ## Claim C2 -/

/-- Claim C2: `Send` makes at most 3 delivery attempts; before attempt `i`
(`i ≥ 2`) it waits `(i-1)` times the fixed 2-second unit; if every attempt
fails with a transport error or a non-2xx status it returns the error of the
last attempt, and if any attempt up to the 3rd succeeds with a 2xx status it
returns with no error. -/
theorem send_retry_policy (data : Data) (oc : Nat → AttemptOutcome) :
    (Send data oc).1.bodies.length ≤ 3 ∧
    (Send data oc).1.waits = List.take (Send data oc).1.waits.length [0, 2, 4] ∧
    ((∀ i, 1 ≤ i → i ≤ 3 → attemptFails (oc i) = true) →
      (Send data oc).1.result = .error (errMsg (oc 3))) ∧
    ((∃ i, 1 ≤ i ∧ i ≤ 3 ∧ attemptFails (oc i) = false) →
      (Send data oc).1.result = .ok ()) := by
  have hc := sendFrom_cases oc (marshalData data)
  cases h1 : attemptFails (oc 1) with
  | false =>
    have ht : (Send data oc).1 = ⟨[0], [marshalData data], .ok ()⟩ := hc.1 h1
    rw [ht]
    exact ⟨by simp, rfl, fun hall => absurd (hall 1 le_rfl (by decide)) (by simp [h1]),
      fun _ => rfl⟩
  | true =>
    cases h2 : attemptFails (oc 2) with
    | false =>
      have ht : (Send data oc).1 =
          ⟨[0, 2], [marshalData data, marshalData data], .ok ()⟩ := hc.2.1 h1 h2
      rw [ht]
      exact ⟨by simp, rfl, fun hall => absurd (hall 2 (by decide) (by decide)) (by simp [h2]),
        fun _ => rfl⟩
    | true =>
      cases h3 : attemptFails (oc 3) with
      | false =>
        have ht : (Send data oc).1 =
            ⟨[0, 2, 4], [marshalData data, marshalData data, marshalData data],
             .ok ()⟩ := hc.2.2.1 h1 h2 h3
        rw [ht]
        exact ⟨by simp, rfl, fun hall => absurd (hall 3 (by decide) (by decide)) (by simp [h3]),
          fun _ => rfl⟩
      | true =>
        have ht : (Send data oc).1 =
            ⟨[0, 2, 4], [marshalData data, marshalData data, marshalData data],
             .error (errMsg (oc 3))⟩ := hc.2.2.2 h1 h2 h3
        rw [ht]
        refine ⟨by simp, rfl, fun _ => rfl, fun hex => ?_⟩
        rcases hex with ⟨i, hi1, hi3, hif⟩
        interval_cases i
        · exact absurd hif (by simp [h1])
        · exact absurd hif (by simp [h2])
        · exact absurd hif (by simp [h3])

/-- Witness for C2: a persistently failing endpoint surfaces the last
attempt's error, and a 2xx endpoint yields no error. -/
theorem send_retry_policy_witness :
    (Send dataW (fun _ => .status 500)).1.result =
      .error (errMsg (AttemptOutcome.status 500)) ∧
    (Send dataW (fun _ => .status 200)).1.result = .ok () :=
  ⟨(send_retry_policy dataW (fun _ => .status 500)).2.2.1 (fun _ _ _ => rfl),
   (send_retry_policy dataW (fun _ => .status 200)).2.2.2 ⟨1, le_rfl, by decide, rfl⟩⟩

/-! ## Claim C9 -/

theorem sendFrom_bodies_eq (oc : Nat → AttemptOutcome) (j : String) (r : Nat) :
    ∀ a le, ((sendFrom oc j a r le).bodies.all fun b => b == j) = true := by
  induction r with
  | zero => intro a le; rfl
  | succ r ih =>
    intro a le
    rw [sendFrom_succ]
    cases h : attemptFails (oc a)
    · simp [h]
    · simp [h, ih]

/-- Claim C9: `Send` never mutates the fact-set it is given; the payload is
serialized once before the retry loop, so every attempt posts the same
marshalled body, and the `Data` value is unchanged when `Send` returns. -/
theorem send_preserves_data (data : Data) (oc : Nat → AttemptOutcome) :
    (Send data oc).2 = data ∧
    ((Send data oc).1.bodies.all fun b => b == marshalData data) = true :=
  ⟨rfl, sendFrom_bodies_eq oc (marshalData data) maxRetries 1 ""⟩

/-! ## Claim C1 -/

/-- Claim C1: the response-returning `Send`, at the first attempt answered
with a 2xx status (all earlier attempts having failed), returns the parsed
response body: the parsed object when the body parses, and `(nil, nil)` —
`.ok none` — when it does not; a response parse failure is never surfaced as
an error. -/
theorem sendWithResponse_parse_result (data : Data) (oc : Nat → ReplyOutcome)
    (k : Nat) (hk1 : 1 ≤ k) (hk3 : k ≤ 3)
    (hfail : ∀ i, 1 ≤ i → i < k → replyFails (oc i) = true)
    (c : Nat) (b : Option Response) (hoc : oc k = .reply c b)
    (hc : statusFails c = false) :
    SendWithResponse data oc = .ok b := by
  have hk : replyFails (ReplyOutcome.reply c b) = false := by
    simpa [replyFails] using hc
  show sendWithResponseFrom oc 1 3 "" = .ok b
  interval_cases k
  · rw [show (3 : Nat) = 2 + 1 from rfl, sendWithResponseFrom_succ]
    simp [hoc, hk, replyBody]
  · rw [show (3 : Nat) = 2 + 1 from rfl, sendWithResponseFrom_succ,
      hfail 1 le_rfl (by decide)]
    rw [show (2 : Nat) = 1 + 1 from rfl, sendWithResponseFrom_succ]
    simp [hoc, hk, replyBody]
  · rw [show (3 : Nat) = 2 + 1 from rfl, sendWithResponseFrom_succ,
      hfail 1 le_rfl (by decide)]
    rw [show (2 : Nat) = 1 + 1 from rfl, sendWithResponseFrom_succ,
      hfail 2 (by decide) (by decide)]
    rw [show (1 : Nat) = 0 + 1 from rfl, sendWithResponseFrom_succ]
    simp [hoc, hk, replyBody]

/-- Witness for C1: a 2xx reply whose body does not parse yields
`.ok none` (no error, no response), and one whose body parses yields the
parsed response. -/
theorem sendWithResponse_parse_result_witness :
    SendWithResponse dataW (fun _ => .reply 200 none) = .ok none ∧
    SendWithResponse dataW (fun _ => .reply 200 (some responseW)) =
      .ok (some responseW) :=
  ⟨sendWithResponse_parse_result dataW (fun _ => .reply 200 none) 1 le_rfl
      (by decide) (fun i hi hlt => absurd (Nat.lt_of_le_of_lt hi hlt) (Nat.lt_irrefl 1))
      200 none rfl (by decide),
   sendWithResponse_parse_result dataW (fun _ => .reply 200 (some responseW)) 1 le_rfl
      (by decide) (fun i hi hlt => absurd (Nat.lt_of_le_of_lt hi hlt) (Nat.lt_irrefl 1))
      200 (some responseW) rfl (by decide)⟩

/-! ## Lookup and node-loop lemmas -/

theorem lookup_cons_skip {β : Type} {k a : String} {v : β} {rest : List (String × β)}
    (h : (k == a) = false) :
    List.lookup k ((a, v) :: rest) = List.lookup k rest := by
  simp [List.lookup, h]

theorem lookup_optField {k a : String} {v : FieldValue} {c : Bool}
    {rest : List (String × FieldValue)} (h : (k == a) = false) :
    List.lookup k (optField c a v ++ rest) = List.lookup k rest := by
  cases c <;> simp [optField, List.lookup, h]

theorem lookup_optField_last {k a : String} {v : FieldValue} {c : Bool}
    (h : (k == a) = false) :
    List.lookup k (optField c a v) = none := by
  cases c <;> simp [optField, List.lookup, h]

theorem lookup_optField_false {k a : String} {v : FieldValue} {c : Bool}
    {rest : List (String × FieldValue)} (h : c = false) :
    List.lookup k (optField c a v ++ rest) = List.lookup k rest := by
  subst h
  simp [optField]

theorem lookup_gpuOperatorFields {k op ver : String} {rest : List (String × FieldValue)}
    (h1 : (k == "gpu-operator") = false) (h2 : (k == "gpu-operator-version") = false) :
    List.lookup k (gpuOperatorFields op ver ++ rest) = List.lookup k rest := by
  unfold gpuOperatorFields
  by_cases hop : op ≠ "none"
  · rw [if_pos hop, List.cons_append, lookup_cons_skip h1, lookup_optField h2]
  · rw [if_neg hop, List.nil_append]

theorem lookup_isSome_iff {β : Type} {l : List (String × β)} {k : String} :
    ((l.lookup k).isSome = true) ↔ ∃ v, (k, v) ∈ l := by
  induction l with
  | nil => simp [List.lookup]
  | cons p t ih =>
    obtain ⟨a, b⟩ := p
    by_cases h : k = a
    · subst h
      simp [List.lookup]
    · have hb : (k == a) = false := by simpa using h
      rw [lookup_cons_skip hb, ih]
      constructor
      · rintro ⟨v, hv⟩
        exact ⟨v, List.mem_cons_of_mem _ hv⟩
      · rintro ⟨v, hv⟩
        rcases List.mem_cons.mp hv with he | hm
        · exact absurd (congrArg Prod.fst he) h
        · exact ⟨v, hm⟩

theorem countP_not_add {α : Type} (p : α → Bool) (l : List α) :
    l.countP p + l.countP (fun a => !p a) = l.length := by
  induction l with
  | nil => simp
  | cons a t ih => cases h : p a <;> simp [List.countP_cons, h] <;> omega

theorem stepNode_server (acc : NodeAcc) (n : Node) :
    (stepNode acc n).serverNodeCount =
      if isControlPlaneNode n then acc.serverNodeCount + 1
      else acc.serverNodeCount := by
  cases hcp : isControlPlaneNode n <;>
  cases hgpu : nodeGpuResource n <;>
    simp [stepNode, hcp, hgpu, apply_ite NodeAcc.serverNodeCount]

theorem stepNode_agent (acc : NodeAcc) (n : Node) :
    (stepNode acc n).agentNodeCount =
      if isControlPlaneNode n then acc.agentNodeCount
      else acc.agentNodeCount + 1 := by
  cases hcp : isControlPlaneNode n <;>
  cases hgpu : nodeGpuResource n <;>
    simp [stepNode, hcp, hgpu, apply_ite NodeAcc.agentNodeCount]

theorem foldl_stepNode_server (l : List Node) :
    ∀ acc : NodeAcc, (l.foldl stepNode acc).serverNodeCount =
      acc.serverNodeCount + l.countP isControlPlaneNode := by
  induction l with
  | nil => intro acc; rfl
  | cons n t ih =>
    intro acc
    rw [List.foldl_cons, ih, stepNode_server]
    cases h : isControlPlaneNode n <;> simp [List.countP_cons, h] <;> omega

theorem foldl_stepNode_agent (l : List Node) :
    ∀ acc : NodeAcc, (l.foldl stepNode acc).agentNodeCount =
      acc.agentNodeCount + l.countP (fun n => !isControlPlaneNode n) := by
  induction l with
  | nil => intro acc; rfl
  | cons n t ih =>
    intro acc
    rw [List.foldl_cons, ih, stepNode_agent]
    cases h : isControlPlaneNode n <;> simp [List.countP_cons, h] <;> omega

theorem foldNodes_server (l : List Node) :
    (foldNodes l).serverNodeCount = l.countP isControlPlaneNode := by
  rw [foldNodes, foldl_stepNode_server]
  simp

theorem foldNodes_agent (l : List Node) :
    (foldNodes l).agentNodeCount = l.countP (fun n => !isControlPlaneNode n) := by
  rw [foldNodes, foldl_stepNode_agent]
  simp

/-! ## Claim C4 -/

/-- Claim C4: `Collect` counts a node as a server node iff it carries at
least one of the two control-plane role labels, counts every other node as
an agent node, and `serverNodeCount + agentNodeCount` equals the total node
count. -/
theorem collect_node_count_partition (cniOrder gpuNsOrder : List (String × String))
    (inp : ClusterInput) (v : String) (ns : NamespaceInfo) (l : List Node)
    (hv : inp.serverVersion = .ok v) (hns : inp.kubeSystemNS = .ok ns)
    (hl : inp.nodes = .ok l) :
    ∃ d, Collect cniOrder gpuNsOrder inp = .ok d ∧
      d.ExtraFieldInfo.lookup "serverNodeCount" =
        some (.int (l.countP isControlPlaneNode)) ∧
      d.ExtraFieldInfo.lookup "agentNodeCount" =
        some (.int (l.countP fun n => !isControlPlaneNode n)) ∧
      l.countP isControlPlaneNode + (l.countP fun n => !isControlPlaneNode n) =
        l.length ∧
      ∀ n : Node, isControlPlaneNode n = true ↔
        ((∃ val, ("node-role.kubernetes.io/control-plane", val) ∈ n.labels) ∨
         (∃ val, ("node-role.kubernetes.io/master", val) ∈ n.labels)) := by
  simp only [Collect, hv, hns, hl]
  refine ⟨_, rfl, ?_, ?_, countP_not_add _ _, ?_⟩
  · simp [List.lookup, foldNodes_server]
  · simp [List.lookup, foldNodes_agent]
  · intro n
    simp [isControlPlaneNode, hasLabelKey, Bool.or_eq_true, lookup_isSome_iff]

/-- Witness for C4 on the concrete three-node cluster. -/
theorem collect_node_count_partition_witness :
    ∃ d, Collect cniPatternTable gpuNamespaceTable inpW = .ok d ∧
      d.ExtraFieldInfo.lookup "serverNodeCount" =
        some (.int (([serverNodeW, agentNodeW, agentNodeW] : List Node).countP
          isControlPlaneNode)) ∧
      d.ExtraFieldInfo.lookup "agentNodeCount" =
        some (.int (([serverNodeW, agentNodeW, agentNodeW] : List Node).countP
          fun n => !isControlPlaneNode n)) ∧
      ([serverNodeW, agentNodeW, agentNodeW] : List Node).countP isControlPlaneNode +
        (([serverNodeW, agentNodeW, agentNodeW] : List Node).countP
          fun n => !isControlPlaneNode n) =
        ([serverNodeW, agentNodeW, agentNodeW] : List Node).length ∧
      ∀ n : Node, isControlPlaneNode n = true ↔
        ((∃ val, ("node-role.kubernetes.io/control-plane", val) ∈ n.labels) ∨
         (∃ val, ("node-role.kubernetes.io/master", val) ∈ n.labels)) :=
  collect_node_count_partition cniPatternTable gpuNamespaceTable inpW
    "v1.30.0+rke2r1" ⟨"test-cluster-uuid"⟩ [serverNodeW, agentNodeW, agentNodeW]
    rfl rfl rfl

/-! ## Claim C8 -/

/-- Claim C8: `Collect` returns an error iff one of the three fatal steps
(server version, kube-system namespace, node listing) fails; a missing
kube-system namespace in particular aborts with an error and no fact-set;
a failure of CNI or ingress detection never aborts — the corresponding
field is downgraded to `"unknown"` and collection continues. -/
theorem collect_fatal_error_characterization
    (cniOrder gpuNsOrder : List (String × String)) (inp : ClusterInput) :
    ((∃ d, Collect cniOrder gpuNsOrder inp = .ok d) ↔
      ((∃ v, inp.serverVersion = .ok v) ∧ (∃ ns, inp.kubeSystemNS = .ok ns) ∧
       (∃ l, inp.nodes = .ok l))) ∧
    (inp.kubeSystemNS = .error () → Collect cniOrder gpuNsOrder inp = .error ()) ∧
    (∀ v ns l, inp.serverVersion = .ok v → inp.kubeSystemNS = .ok ns →
      inp.nodes = .ok l → inp.kubeSystemDaemonSets = .error () →
      ∃ d, Collect cniOrder gpuNsOrder inp = .ok d ∧
        d.ExtraFieldInfo.lookup "cni-plugin" = some (.str "unknown")) ∧
    (∀ v ns l, inp.serverVersion = .ok v → inp.kubeSystemNS = .ok ns →
      inp.nodes = .ok l → inp.kubeSystemDeployments = .error () →
      ∃ d, Collect cniOrder gpuNsOrder inp = .ok d ∧
        d.ExtraFieldInfo.lookup "ingress-controller" = some (.str "unknown")) := by
  refine ⟨⟨?_, ?_⟩, ?_, ?_, ?_⟩
  · rintro ⟨d, hd⟩
    rcases hsv : inp.serverVersion with e | v
    · rw [Collect, hsv] at hd; cases hd
    rcases hns : inp.kubeSystemNS with e | ns
    · rw [Collect, hsv, hns] at hd; cases hd
    rcases hl : inp.nodes with e | l
    · rw [Collect, hsv, hns, hl] at hd; cases hd
    exact ⟨⟨v, rfl⟩, ⟨ns, rfl⟩, ⟨l, rfl⟩⟩
  · rintro ⟨⟨v, hv⟩, ⟨ns, hns⟩, ⟨l, hl⟩⟩
    exact ⟨_, by rw [Collect, hv, hns, hl]⟩
  · intro hns
    rcases hsv : inp.serverVersion with e | v
    · rw [Collect, hsv]
    · rw [Collect, hsv, hns]
  · intro v ns l hv hns hl hds
    simp only [Collect, hv, hns, hl]
    refine ⟨_, rfl, ?_⟩
    simp only [List.cons_append, List.append_assoc, List.nil_append]
    rw [lookup_cons_skip (by decide), lookup_cons_skip (by decide),
      lookup_cons_skip (by decide), lookup_cons_skip (by decide),
      lookup_cons_skip (by decide), lookup_cons_skip (by decide),
      lookup_cons_skip (by decide), lookup_optField (by decide)]
    simp [List.lookup, detectCNIPluginE, hds]
  · intro v ns l hv hns hl hdep
    simp only [Collect, hv, hns, hl]
    refine ⟨_, rfl, ?_⟩
    simp only [List.cons_append, List.append_assoc, List.nil_append]
    rw [lookup_cons_skip (by decide), lookup_cons_skip (by decide),
      lookup_cons_skip (by decide), lookup_cons_skip (by decide),
      lookup_cons_skip (by decide), lookup_cons_skip (by decide),
      lookup_cons_skip (by decide), lookup_optField (by decide),
      lookup_cons_skip (by decide), lookup_optField (by decide)]
    simp [List.lookup, detectIngressController, hdep]

/-- Witness for C8: the missing-namespace cluster aborts, and the cluster
with failing workload listings still succeeds with `cni-plugin = "unknown"`
and `ingress-controller = "unknown"`. -/
theorem collect_fatal_error_characterization_witness :
    Collect cniPatternTable gpuNamespaceTable inpNoNSW = .error () ∧
    (∃ d, Collect cniPatternTable gpuNamespaceTable inpListFailW = .ok d ∧
      d.ExtraFieldInfo.lookup "cni-plugin" = some (.str "unknown")) ∧
    (∃ d, Collect cniPatternTable gpuNamespaceTable inpListFailW = .ok d ∧
      d.ExtraFieldInfo.lookup "ingress-controller" = some (.str "unknown")) :=
  ⟨(collect_fatal_error_characterization cniPatternTable gpuNamespaceTable
      inpNoNSW).2.1 rfl,
   (collect_fatal_error_characterization cniPatternTable gpuNamespaceTable
      inpListFailW).2.2.1 "v1.30.0+rke2r1" ⟨"uuid"⟩ [agentNodeW] rfl rfl rfl rfl,
   (collect_fatal_error_characterization cniPatternTable gpuNamespaceTable
      inpListFailW).2.2.2 "v1.30.0+rke2r1" ⟨"uuid"⟩ [agentNodeW] rfl rfl rfl rfl⟩

/-! ## Claim C10 -/

/-- Claim C10: on a cluster whose fatal queries succeed and whose node list
is empty, `Collect` succeeds, records the node counts and the GPU node count
as 0, records `os`, `kernel`, `arch` and `selinux` as empty strings (in
particular `selinux` is `""` rather than `"unknown"`), and omits the
`gpu-vendor` field. -/
theorem collect_empty_node_list (cniOrder gpuNsOrder : List (String × String))
    (inp : ClusterInput) (v : String) (ns : NamespaceInfo)
    (hv : inp.serverVersion = .ok v) (hns : inp.kubeSystemNS = .ok ns)
    (hl : inp.nodes = .ok []) :
    ∃ d, Collect cniOrder gpuNsOrder inp = .ok d ∧
      d.ExtraFieldInfo.lookup "serverNodeCount" = some (.int 0) ∧
      d.ExtraFieldInfo.lookup "agentNodeCount" = some (.int 0) ∧
      d.ExtraFieldInfo.lookup "gpu-nodes" = some (.int 0) ∧
      d.ExtraFieldInfo.lookup "os" = some (.str "") ∧
      d.ExtraFieldInfo.lookup "kernel" = some (.str "") ∧
      d.ExtraFieldInfo.lookup "arch" = some (.str "") ∧
      d.ExtraFieldInfo.lookup "selinux" = some (.str "") ∧
      d.ExtraFieldInfo.lookup "gpu-vendor" = none := by
  have hfold : foldNodes [] = ⟨0, 0, 0, "", "", "", "", ""⟩ := rfl
  simp only [Collect, hv, hns, hl, hfold]
  refine ⟨_, rfl, ?_, ?_, ?_, ?_, ?_, ?_, ?_, ?_⟩ <;>
    simp only [List.cons_append, List.append_assoc, List.nil_append]
  · simp [List.lookup]
  · simp [List.lookup]
  · simp [List.lookup]
  · simp [List.lookup]
  · simp [List.lookup]
  · simp [List.lookup]
  · simp [List.lookup]
  · rw [lookup_cons_skip (by decide), lookup_cons_skip (by decide),
      lookup_cons_skip (by decide), lookup_cons_skip (by decide),
      lookup_cons_skip (by decide), lookup_cons_skip (by decide),
      lookup_cons_skip (by decide), lookup_optField_false (by rfl),
      lookup_cons_skip (by decide), lookup_optField (by decide),
      lookup_cons_skip (by decide), lookup_optField (by decide),
      lookup_gpuOperatorFields (by decide) (by decide),
      lookup_cons_skip (by decide), lookup_optField (by decide),
      lookup_optField_last (by decide)]

/-- Witness for C10 on the concrete empty cluster. -/
theorem collect_empty_node_list_witness :
    ∃ d, Collect cniPatternTable gpuNamespaceTable inpEmptyW = .ok d ∧
      d.ExtraFieldInfo.lookup "serverNodeCount" = some (.int 0) ∧
      d.ExtraFieldInfo.lookup "agentNodeCount" = some (.int 0) ∧
      d.ExtraFieldInfo.lookup "gpu-nodes" = some (.int 0) ∧
      d.ExtraFieldInfo.lookup "os" = some (.str "") ∧
      d.ExtraFieldInfo.lookup "kernel" = some (.str "") ∧
      d.ExtraFieldInfo.lookup "arch" = some (.str "") ∧
      d.ExtraFieldInfo.lookup "selinux" = some (.str "") ∧
      d.ExtraFieldInfo.lookup "gpu-vendor" = none :=
  collect_empty_node_list cniPatternTable gpuNamespaceTable inpEmptyW
    "v1.30.0+rke2r1" ⟨"uuid"⟩ rfl rfl rfl

/-! ## Claim C6 -/

/-- Claim C6: image tag extraction takes the substring after the last `':'`
of the image string and truncates it at a following `'@'` if one appears;
`"nginx:1.21"` yields `"1.21"`, `"nginx"` (no colon) yields `""`,
`"nginx@sha256:abc123"` yields `"abc123"`, and
`"nginx:v1.0.0@sha256:abc123"` yields `"abc123"` (the last colon wins,
including the one inside a digest). -/
theorem extractImageVersion_matches_spec :
    (∀ image, extractImageVersion image = extractImageVersionSpec image) ∧
    extractImageVersion "nginx:1.21" = "1.21" ∧
    extractImageVersion "nginx" = "" ∧
    extractImageVersion "nginx@sha256:abc123" = "abc123" ∧
    extractImageVersion "nginx:v1.0.0@sha256:abc123" = "abc123" := by
  refine ⟨fun image => ?_, by decide, by decide, by decide, by decide⟩
  rw [extractImageVersion, afterLastColon_eq, extractImageVersionSpec]
  by_cases h : ':' ∈ image.data <;> simp [h]

/-! ## Ingress-scan lemmas -/

theorem findIngress_nginx (l : List Workload)
    (hn : (l.any fun w => matchesNginx w.name) = true)
    (ht : (l.all fun w => !matchesTraefik w.name) = true) :
    ∃ ver, findIngress l = some ("rke2-ingress-nginx", ver) := by
  induction l with
  | nil => simp at hn
  | cons w t ih =>
    simp only [List.all_cons, Bool.and_eq_true] at ht
    cases hw : matchesNginx w.name
    · have hwt : matchesTraefik w.name = false := by simpa using ht.1
      have hn' : (t.any fun w => matchesNginx w.name) = true := by
        simpa [hw] using hn
      obtain ⟨ver, hver⟩ := ih hn' ht.2
      exact ⟨ver, by simp [findIngress, ingressNameFor, hw, hwt, hver]⟩
    · exact ⟨firstContainerVersion w, by simp [findIngress, ingressNameFor, hw]⟩

theorem findIngress_none (l : List Workload)
    (h : (l.all fun w => !matchesNginx w.name && !matchesTraefik w.name) = true) :
    findIngress l = none := by
  induction l with
  | nil => rfl
  | cons w t ih =>
    simp only [List.all_cons, Bool.and_eq_true] at h
    have h1 : matchesNginx w.name = false := by simpa using h.1.1
    have h2 : matchesTraefik w.name = false := by simpa using h.1.2
    simp [findIngress, ingressNameFor, h1, h2, ih h.2]

/-! ## Claim C7 -/

/-- Claim C7 counterexample: a deployment list holding a `traefik`-named
deployment before an `nginx-ingress`-named one makes the detection return
`"traefik"`, so a deployment whose name contains `"nginx-ingress"` does not
always yield `"rke2-ingress-nginx"`. -/
theorem detectIngress_traefik_counterexample :
    matchesNginx "nginx-ingress" = true ∧
    detectIngressController
      (.ok [⟨"traefik", [⟨"traefik:v2.10", []⟩]⟩, ⟨"nginx-ingress", [⟨"x:1", []⟩]⟩])
      (.ok []) = .ok ("traefik", "v2.10") := by
  constructor
  · decide
  · decide

/-- Claim C7 (amended): the detection scans deployments first and daemon-sets
only afterwards; a deployment or daemon-set name containing `"nginx-ingress"`
or `"rke2-ingress-nginx"` yields `"rke2-ingress-nginx"` provided no resource
of the same scan stage matches `"traefik"`; and when no name in either
resource kind matches any pattern of the fixed list, the result is `"none"`
(distinct from `"unknown"`). -/
theorem detectIngress_amended (deps dss : List Workload) :
    ((deps.any fun w => matchesNginx w.name) = true →
     (deps.all fun w => !matchesTraefik w.name) = true →
     ∀ dsArg : Except Unit (List Workload),
       ∃ ver, detectIngressController (.ok deps) dsArg =
         .ok ("rke2-ingress-nginx", ver)) ∧
    ((deps.all fun w => !matchesNginx w.name && !matchesTraefik w.name) = true →
     (dss.any fun w => matchesNginx w.name) = true →
     (dss.all fun w => !matchesTraefik w.name) = true →
     ∃ ver, detectIngressController (.ok deps) (.ok dss) =
       .ok ("rke2-ingress-nginx", ver)) ∧
    ((deps.all fun w => !matchesNginx w.name && !matchesTraefik w.name) = true →
     (dss.all fun w => !matchesNginx w.name && !matchesTraefik w.name) = true →
     detectIngressController (.ok deps) (.ok dss) = .ok ("none", "")) := by
  refine ⟨fun hn ht dsArg => ?_, fun hd hn ht => ?_, fun h1 h2 => ?_⟩
  · obtain ⟨ver, hver⟩ := findIngress_nginx deps hn ht
    exact ⟨ver, by simp [detectIngressController, hver]⟩
  · obtain ⟨ver, hver⟩ := findIngress_nginx dss hn ht
    exact ⟨ver, by simp [detectIngressController, findIngress_none deps hd, hver]⟩
  · simp [detectIngressController, findIngress_none deps h1, findIngress_none dss h2]

/-- Witness for C7 (amended): a lone nginx ingress deployment is detected as
`rke2-ingress-nginx`, and an empty cluster yields `none`. -/
theorem detectIngress_amended_witness :
    (∃ ver, detectIngressController (.ok [ingressDepW]) (.ok []) =
      .ok ("rke2-ingress-nginx", ver)) ∧
    detectIngressController (.ok ([] : List Workload)) (.ok ([] : List Workload)) =
      .ok ("none", "") :=
  ⟨(detectIngress_amended [ingressDepW] []).1 (by decide) (by decide) (.ok []),
   (detectIngress_amended [] []).2.2 (by decide) (by decide)⟩

/-! ## First-match scans under permutations of the classification tables -/

theorem find?_eq_of_perm_of_countP_le_one {α : Type} (p : α → Bool)
    {l₁ l₂ : List α} (h : l₁.Perm l₂) :
    l₁.countP p ≤ 1 → l₁.find? p = l₂.find? p := by
  induction h with
  | nil => intro _; rfl
  | cons x h ih =>
    intro hc
    cases hp : p x
    · rw [List.find?_cons_of_neg _ (by simp [hp]),
        List.find?_cons_of_neg _ (by simp [hp])]
      apply ih
      rw [List.countP_cons, hp] at hc
      simpa using hc
    · rw [List.find?_cons_of_pos _ hp, List.find?_cons_of_pos _ hp]
  | swap x y l =>
    intro hc
    cases hpx : p x <;> cases hpy : p y
    · rw [List.find?_cons_of_neg _ (by simp [hpy]),
        List.find?_cons_of_neg _ (by simp [hpx]),
        List.find?_cons_of_neg _ (by simp [hpx]),
        List.find?_cons_of_neg _ (by simp [hpy])]
    · rw [List.find?_cons_of_pos _ hpy,
        List.find?_cons_of_neg _ (by simp [hpx]),
        List.find?_cons_of_pos _ hpy]
    · rw [List.find?_cons_of_neg _ (by simp [hpy]),
        List.find?_cons_of_pos _ hpx, List.find?_cons_of_pos _ hpx]
    · rw [List.countP_cons, List.countP_cons, hpx, hpy] at hc
      simp at hc
  | trans h₁ h₂ ih₁ ih₂ =>
    intro hc
    exact (ih₁ hc).trans (ih₂ (by rw [← h₁.countP_eq]; exact hc))

theorem cniMatchFor_perm {patterns : List (String × String)}
    (hperm : cniPatternTable.Perm patterns) (w : Workload)
    (hu : cniPatternTable.countP
      (fun p => strContains (lowerString w.name) p.1) ≤ 1) :
    cniMatchFor patterns w = cniMatchFor cniPatternTable w := by
  unfold cniMatchFor
  rw [← find?_eq_of_perm_of_countP_le_one _ hperm hu]

theorem detectCNIPlugin_invariant {patterns : List (String × String)}
    (hperm : cniPatternTable.Perm patterns) (dss : List Workload)
    (hu : ∀ w ∈ dss, cniPatternTable.countP
      (fun p => strContains (lowerString w.name) p.1) ≤ 1) :
    detectCNIPlugin patterns dss = detectCNIPlugin cniPatternTable dss := by
  induction dss with
  | nil => rfl
  | cons w t ih =>
    have hm := cniMatchFor_perm hperm w (hu w (List.mem_cons_self w t))
    have iht := ih fun x hx => hu x (List.mem_cons_of_mem w hx)
    simp only [detectCNIPlugin, hm, iht]

theorem detectGPUOperator_eq_find (order : List (String × String))
    (dsOf : String → Except Unit (List Workload)) :
    detectGPUOperator order dsOf =
      match order.find? (fun e => gpuNsMatches dsOf e.1) with
      | some e => (e.2, gpuNsVersion dsOf e.1)
      | none => ("none", "") := by
  induction order with
  | nil => rfl
  | cons e rest ih =>
    obtain ⟨ns, op⟩ := e
    rw [detectGPUOperator]
    cases hds : dsOf ns with
    | error u =>
      have hm : gpuNsMatches dsOf ns = false := by
        simp only [gpuNsMatches, hds]
      simp only [hds]
      rw [ih, List.find?_cons_of_neg _ (by simpa using hm)]
    | ok wss =>
      cases hf : wss.find? gpuMarkerMatch with
      | some w =>
        have hm : gpuNsMatches dsOf ns = true := by
          simp only [gpuNsMatches, hds]
          exact List.any_eq_true.mpr
            ⟨w, List.mem_of_find?_eq_some hf, List.find?_some hf⟩
        simp only [hds, hf]
        rw [List.find?_cons_of_pos _ (by simpa using hm)]
        simp [gpuNsVersion, hds, hf]
      | none =>
        have hm : gpuNsMatches dsOf ns = false := by
          simp only [gpuNsMatches, hds]
          cases hany : wss.any gpuMarkerMatch
          · rfl
          · obtain ⟨x, hx, hpx⟩ := List.any_eq_true.mp hany
            have hnone := List.find?_eq_none.mp hf x hx
            simp [hpx] at hnone
        simp only [hds, hf]
        rw [ih, List.find?_cons_of_neg _ (by simpa using hm)]

theorem detectGPUOperator_invariant {order : List (String × String)}
    (hperm : gpuNamespaceTable.Perm order)
    (dsOf : String → Except Unit (List Workload))
    (hg : gpuNamespaceTable.countP (fun e => gpuNsMatches dsOf e.1) ≤ 1) :
    detectGPUOperator order dsOf = detectGPUOperator gpuNamespaceTable dsOf := by
  rw [detectGPUOperator_eq_find, detectGPUOperator_eq_find,
    ← find?_eq_of_perm_of_countP_le_one _ hperm hg]

/-! ## Claim C5 -/

/-- Claim C5 counterexample: the CNI pattern table and the GPU namespace
table are Go maps the code ranges over, so the iteration order varies
between runs; on a daemon-set named `canal-weave`, and on a cluster with
marker daemon-sets in two GPU namespaces, two valid iteration orders of the
very same tables produce different canonical names. -/
theorem detect_map_order_counterexample :
    cniPatternTable.Perm cniPatternTable.reverse ∧
    detectCNIPlugin cniPatternTable [wlCanalWeaveW] ≠
      detectCNIPlugin cniPatternTable.reverse [wlCanalWeaveW] ∧
    gpuNamespaceTable.Perm gpuNamespaceTable.reverse ∧
    detectGPUOperator gpuNamespaceTable gpuDsOfW ≠
      detectGPUOperator gpuNamespaceTable.reverse gpuDsOfW :=
  ⟨(List.reverse_perm _).symm, by decide, (List.reverse_perm _).symm, by decide⟩

/-- Claim C5 (amended): CNI-plugin and GPU-operator detection are
independent of the map-iteration order — hence deterministic across two
runs on the same cluster state — provided at most one CNI pattern matches
each daemon-set name and at most one GPU namespace yields a marker match;
with multiple simultaneous matches the winner depends on the randomized
iteration order. -/
theorem detect_order_invariant_of_unique_match
    (cniOrder gpuNsOrder : List (String × String))
    (hcni : cniPatternTable.Perm cniOrder)
    (hgpu : gpuNamespaceTable.Perm gpuNsOrder)
    (dss : List Workload)
    (hu : ∀ w ∈ dss, cniPatternTable.countP
      (fun p => strContains (lowerString w.name) p.1) ≤ 1)
    (dsOf : String → Except Unit (List Workload))
    (hg : gpuNamespaceTable.countP (fun e => gpuNsMatches dsOf e.1) ≤ 1) :
    detectCNIPlugin cniOrder dss = detectCNIPlugin cniPatternTable dss ∧
    detectGPUOperator gpuNsOrder dsOf = detectGPUOperator gpuNamespaceTable dsOf :=
  ⟨detectCNIPlugin_invariant hcni dss hu, detectGPUOperator_invariant hgpu dsOf hg⟩

/-- Witness for C5 (amended): on a cluster whose flannel daemon-set matches
exactly one pattern and with no GPU namespaces, the reversed iteration order
detects the same plugin and operator as the declaration order. -/
theorem detect_order_invariant_of_unique_match_witness :
    detectCNIPlugin cniPatternTable.reverse [wlFlannelW] =
      detectCNIPlugin cniPatternTable [wlFlannelW] ∧
    detectGPUOperator gpuNamespaceTable.reverse (fun _ => .ok []) =
      detectGPUOperator gpuNamespaceTable (fun _ => .ok []) :=
  detect_order_invariant_of_unique_match cniPatternTable.reverse
    gpuNamespaceTable.reverse (List.reverse_perm _).symm (List.reverse_perm _).symm
    [wlFlannelW] (by decide) (fun _ => .ok []) (by decide)

/-! ## Claim C3 -/

theorem detectRancherManager_managed (c : Except Unit Unit)
    (a : Except Unit Workload) :
    (detectRancherManager c a).1 =
      (match c with | .ok _ => true | .error _ => false) := by
  cases c with
  | error e => rfl
  | ok u =>
    cases a with
    | error e => rfl
    | ok deploy => cases hd : deploy.containers <;> simp [detectRancherManager, hd]

/-- Claim C3: in `minimal` mode (and with the fatal queries succeeding),
every node-derived count and every CPU/memory aggregate of the produced
fact-set is exactly the numeric sentinel `-1` regardless of the actual
cluster contents, the management-layer version and install-identifier fields
are empty strings, and the management-layer boolean status is still the true
one (the cattle-system namespace's existence). -/
theorem collectWithMode_minimal_sentinels
    (cniOrder gpuNsOrder : List (String × String)) (inp : ClusterInput)
    (v : String) (ns : NamespaceInfo) (l : List Node)
    (hv : inp.serverVersion = .ok v) (hns : inp.kubeSystemNS = .ok ns)
    (hl : inp.nodes = .ok l) :
    ∃ d, CollectWithMode "minimal" cniOrder gpuNsOrder inp = .ok d ∧
      d.ExtraFieldInfo.lookup "serverNodeCount" = some (.int (-1)) ∧
      d.ExtraFieldInfo.lookup "agentNodeCount" = some (.int (-1)) ∧
      d.ExtraFieldInfo.lookup "gpuNodeCount" = some (.int (-1)) ∧
      d.ExtraFieldInfo.lookup "serverCPU" = some (.int (-1)) ∧
      d.ExtraFieldInfo.lookup "agentCPU" = some (.int (-1)) ∧
      d.ExtraFieldInfo.lookup "serverMemory" = some (.int (-1)) ∧
      d.ExtraFieldInfo.lookup "agentMemory" = some (.int (-1)) ∧
      d.ExtraFieldInfo.lookup "rancher-version" = some (.str "") ∧
      d.ExtraFieldInfo.lookup "rancher-install-uuid" = some (.str "") ∧
      d.ExtraFieldInfo.lookup "rancher-managed" =
        some (.bool (cattleSystemExists inp)) := by
  simp only [CollectWithMode, hv, hns, hl, if_true]
  refine ⟨_, rfl, ?_, ?_, ?_, ?_, ?_, ?_, ?_, ?_, ?_, ?_⟩ <;>
    simp only [List.cons_append, List.append_assoc, List.nil_append]
  · rw [lookup_cons_skip (by decide)]
    simp [List.lookup]
  · rw [lookup_cons_skip (by decide)]
    simp [List.lookup]
  · rw [lookup_cons_skip (by decide)]
    simp [List.lookup]
  · rw [lookup_cons_skip (by decide)]
    simp [List.lookup]
  · rw [lookup_cons_skip (by decide)]
    simp [List.lookup]
  · rw [lookup_cons_skip (by decide)]
    simp [List.lookup]
  · rw [lookup_cons_skip (by decide)]
    simp [List.lookup]
  · rw [lookup_cons_skip (by decide), lookup_cons_skip (by decide),
      lookup_cons_skip (by decide), lookup_cons_skip (by decide),
      lookup_cons_skip (by decide), lookup_cons_skip (by decide),
      lookup_cons_skip (by decide), lookup_cons_skip (by decide),
      lookup_cons_skip (by decide), lookup_cons_skip (by decide),
      lookup_cons_skip (by decide), lookup_cons_skip (by decide),
      lookup_optField (by decide), lookup_cons_skip (by decide),
      lookup_optField (by decide), lookup_cons_skip (by decide),
      lookup_optField (by decide), lookup_gpuOperatorFields (by decide) (by decide),
      lookup_cons_skip (by decide)]
    simp [List.lookup]
  · rw [lookup_cons_skip (by decide), lookup_cons_skip (by decide),
      lookup_cons_skip (by decide), lookup_cons_skip (by decide),
      lookup_cons_skip (by decide), lookup_cons_skip (by decide),
      lookup_cons_skip (by decide), lookup_cons_skip (by decide),
      lookup_cons_skip (by decide), lookup_cons_skip (by decide),
      lookup_cons_skip (by decide), lookup_cons_skip (by decide),
      lookup_optField (by decide), lookup_cons_skip (by decide),
      lookup_optField (by decide), lookup_cons_skip (by decide),
      lookup_optField (by decide), lookup_gpuOperatorFields (by decide) (by decide),
      lookup_cons_skip (by decide), lookup_cons_skip (by decide)]
    simp [List.lookup]
  · rw [lookup_cons_skip (by decide), lookup_cons_skip (by decide),
      lookup_cons_skip (by decide), lookup_cons_skip (by decide),
      lookup_cons_skip (by decide), lookup_cons_skip (by decide),
      lookup_cons_skip (by decide), lookup_cons_skip (by decide),
      lookup_cons_skip (by decide), lookup_cons_skip (by decide),
      lookup_cons_skip (by decide), lookup_cons_skip (by decide),
      lookup_optField (by decide), lookup_cons_skip (by decide),
      lookup_optField (by decide), lookup_cons_skip (by decide),
      lookup_optField (by decide), lookup_gpuOperatorFields (by decide) (by decide)]
    rw [detectRancherManager_managed]
    simp only [List.lookup]
    rw [cattleSystemExists]
    simp

/-- Witness for C3 on a concrete two-node, Rancher-managed cluster. -/
theorem collectWithMode_minimal_sentinels_witness :
    ∃ d, CollectWithMode "minimal" cniPatternTable gpuNamespaceTable inpMinW =
        .ok d ∧
      d.ExtraFieldInfo.lookup "serverNodeCount" = some (.int (-1)) ∧
      d.ExtraFieldInfo.lookup "agentNodeCount" = some (.int (-1)) ∧
      d.ExtraFieldInfo.lookup "gpuNodeCount" = some (.int (-1)) ∧
      d.ExtraFieldInfo.lookup "serverCPU" = some (.int (-1)) ∧
      d.ExtraFieldInfo.lookup "agentCPU" = some (.int (-1)) ∧
      d.ExtraFieldInfo.lookup "serverMemory" = some (.int (-1)) ∧
      d.ExtraFieldInfo.lookup "agentMemory" = some (.int (-1)) ∧
      d.ExtraFieldInfo.lookup "rancher-version" = some (.str "") ∧
      d.ExtraFieldInfo.lookup "rancher-install-uuid" = some (.str "") ∧
      d.ExtraFieldInfo.lookup "rancher-managed" =
        some (.bool (cattleSystemExists inpMinW)) :=
  collectWithMode_minimal_sentinels cniPatternTable gpuNamespaceTable inpMinW
    "v1.30.0+rke2r1" ⟨"uuid"⟩ [serverNodeW, agentNodeW] rfl rfl rfl

end Telemetry
